import Mathlib

/-!
Shallow embedding, in Lean 4, of the parts of the OpenVPN 2.0-era
multi-client server engine that the theorems below are about:

* `src/openvpn/mroute.h`     — `mroute_addr`, its equality and hash helpers
* `src/openvpn/multi.h`      — `multi_route_defined`, instance refcounting,
  `multi_get_timeout`
* `src/openvpn/helper.c`     — `helper_client_server`, `helper_keepalive`
* `src/openvpn/session_id.h` — `session_id_defined`
* `src/openvpn/crc32.c`      — table-driven CRC-32

C `uint8_t` / `in_addr_t` / `unsigned` values are modelled as `Nat` (with an
explicit `% 2^32` where 32-bit wrap is reachable), C `int` / `time_t` as
`Int`, C pointers that are never NULL as plain values, and fatal
configuration errors (`msg (M_USAGE, ...)`, failed `ASSERT`) as
`Except String`.  Struct fields that none of the verified properties read
are omitted from the Lean records.  Definitions whose C source is not among
the studied files carry a doc comment starting `Modelled from the spec:`.
-/

namespace OpenVPN

/-- `MR_MAX_ADDR_LEN` (mroute.h): size of the `addr` payload array. -/
def MR_MAX_ADDR_LEN : Nat := 20

/-- `struct mroute_addr` (mroute.h).  The payload array `addr` is a list of
byte values; well-formed values have `addr.length = MR_MAX_ADDR_LEN` and
`len ≤ MR_MAX_ADDR_LEN`. -/
structure MrouteAddr where
  len : Nat
  unused : Nat
  type : Nat
  netbits : Nat
  addr : List Nat
deriving Repr, DecidableEq

/-- `memcmp (a, b, n) == 0` on byte arrays: the first `n` bytes agree. -/
def memcmp_eq (a b : List Nat) (n : Nat) : Bool :=
  a.take n == b.take n

/-- `mroute_addr_equal` (mroute.h). -/
def mroute_addr_equal (a1 a2 : MrouteAddr) : Bool :=
  if a1.type != a2.type then false
  else if a1.netbits != a2.netbits then false
  else if a1.len != a2.len then false
  else memcmp_eq a1.addr a2.addr a1.len

/-- `mroute_addr_hash_len` (mroute.h): the hashed region is `len + 2` bytes. -/
def mroute_addr_hash_len (a : MrouteAddr) : Nat := a.len + 2

/-- The byte region hashed for an address: `mroute_addr_hash_len a` bytes
starting at `mroute_addr_hash_ptr a = &a->type` (mroute.h).  The struct lays
out `len, unused, type, netbits, addr[MR_MAX_ADDR_LEN]`, so the region is
`type`, `netbits`, then the first `len` payload bytes. -/
def mroute_addr_hash_region (a : MrouteAddr) : List Nat :=
  (a.type :: a.netbits :: a.addr).take (mroute_addr_hash_len a)

/-- Modelled from the spec: `mroute_addr_hash_function` (mroute.c, which is
not among the studied sources) feeds the `mroute_addr_hash_len` bytes at
`mroute_addr_hash_ptr` to the generic Jenkins-style byte hash of list.h with
initial value `iv`; the byte hash itself is abstracted as the parameter
`hf`. -/
def mroute_addr_hash_function (hf : List Nat → Nat → Nat) (a : MrouteAddr) (iv : Nat) : Nat :=
  hf (mroute_addr_hash_region a) iv

/-- `struct session_id` (session_id.h): 8 bytes. -/
structure SessionId where
  id : List Nat
deriving Repr, DecidableEq

/-- `sizeof (struct session_id)`. -/
def sizeof_session_id : Nat := 8

/-- `_session_id_zero` (session_id.c): the all-zero session id. -/
def session_id_zero : SessionId :=
  ⟨List.replicate 8 0⟩

/-- `session_id_defined` (session_id.h).  The C size argument to `memcmp` is
the boolean expression `sizeof (struct session_id) != 0`, which evaluates to
`1`, so only the first byte is compared against `_session_id_zero`. -/
def session_id_defined (sid1 : SessionId) : Bool :=
  let size : Nat := if sizeof_session_id != 0 then 1 else 0
  ! memcmp_eq sid1.id session_id_zero.id size

/-- Exponents of the CRC-32 polynomial terms except `x^32` (crc32.c, array
`p` in `make_crc_table`). -/
def crc32_terms : List Nat := [0, 1, 2, 4, 5, 7, 8, 10, 11, 12, 16, 22, 23, 26]

/-- The exclusive-or pattern `poly` built from the terms in `make_crc_table`
(crc32.c); equals `0xedb88320`. -/
def crc32_poly : Nat :=
  crc32_terms.foldl (fun poly n => poly ||| (1 <<< (31 - n))) 0

/-- One entry of the 256-entry table built by `make_crc_table` (crc32.c):
eight shift-register steps starting from the byte value `n`. -/
def crc_table (n : Nat) : Nat :=
  (List.range 8).foldl (fun c _ => if c % 2 = 1 then crc32_poly ^^^ (c >>> 1) else c >>> 1) n

/-- The `DO1` step of crc32.c:
`crc = crc_table[((int)crc ^ (*buf++)) & 0xff] ^ (crc >> 8)`. -/
def crc32_do1 (crc byte : Nat) : Nat :=
  crc_table ((crc ^^^ byte) &&& 255) ^^^ (crc >>> 8)

/-- `crc32 (crc, buf, len)` (crc32.c).  A NULL `buf` is `none`; the `DO8`
macro is eight `DO1` steps, so the main loop plus the trailing loop is a
fold of `crc32_do1` over the first `len` bytes. -/
def crc32 (crc : Nat) (buf : Option (List Nat)) (len : Nat) : Nat :=
  match buf with
  | none => 0
  | some bytes => ((bytes.take len).foldl crc32_do1 (crc ^^^ 4294967295)) ^^^ 4294967295

/-- `struct mroute_helper` (mroute.h). -/
structure MrouteHelper where
  cache_generation : Nat
  ageable_ttl_secs : Int
  n_net_len : Int
  net_len : List Nat
  net_len_refcount : List Int
deriving Repr, DecidableEq

/-- `struct multi_instance` (multi.h); only the lifecycle fields that the
verified properties read are modelled. -/
structure MultiInstance where
  defined : Bool
  halt : Bool
  refcount : Int
deriving Repr, DecidableEq

/-- `struct timeval`. -/
structure Timeval where
  tv_sec : Int
  tv_usec : Int
deriving Repr, DecidableEq

/-- `struct multi_context` (multi.h), restricted to the fields the verified
properties read.  The field `schedule` is modelled from the spec: the
schedule object (schedule.h is not among the studied sources) is represented
by the observable result of `schedule_get_earliest_wakeup`, the earliest
entry with its absolute wakeup time, or `none` when the schedule is empty. -/
structure MultiContext where
  route_helper : MrouteHelper
  schedule : Option (MultiInstance × Timeval)
  earliest_wakeup : Option MultiInstance
deriving Repr, DecidableEq

/-- `MULTI_ROUTE_CACHE` (multi.h): `1 << 8`. -/
def MULTI_ROUTE_CACHE : Nat := 256

/-- `MULTI_ROUTE_AGEABLE` (multi.h): `1 << 9`. -/
def MULTI_ROUTE_AGEABLE : Nat := 512

/-- `struct multi_route` (multi.h).  The C field `instance` is a never-NULL
pointer to the owning client instance; it is named `route_instance` here
because `instance` is a Lean keyword. -/
structure MultiRoute where
  addr : MrouteAddr
  route_instance : MultiInstance
  flags : Nat
  cache_generation : Nat
  last_reference : Int
deriving Repr, DecidableEq

/-- `multi_instance_ready` (multi.h): `mi != NULL`; pointers in the
embedding are never NULL. -/
def multi_instance_ready (_mi : MultiInstance) : Bool := true

/-- `multi_route_defined` (multi.h).  `now` is the C global current time. -/
def multi_route_defined (now : Int) (m : MultiContext) (r : MultiRoute) : Bool :=
  if r.route_instance.halt || ! multi_instance_ready r.route_instance then false
  else if (r.flags &&& MULTI_ROUTE_CACHE != 0)
          && (r.cache_generation != m.route_helper.cache_generation) then false
  else if (r.flags &&& MULTI_ROUTE_AGEABLE != 0)
          && decide (r.last_reference + m.route_helper.ageable_ttl_secs < now) then false
  else true

/-- Outcome of `multi_instance_dec_refcount` (multi.h): whether the
`ASSERT (mi->halt)` held when it was reached (vacuously `true` when it was
not), whether the instance was freed, and the instance state after the
decrement. -/
structure DecRefcountResult where
  assert_ok : Bool
  freed : Bool
  mi : MultiInstance
deriving Repr, DecidableEq

/-- `multi_instance_dec_refcount` (multi.h): decrement the refcount; once it
drops to `<= 0` the code asserts `mi->halt` and then frees the instance. -/
def multi_instance_dec_refcount (mi : MultiInstance) : DecRefcountResult :=
  let mi2 : MultiInstance := { mi with refcount := mi.refcount - 1 }
  if mi2.refcount ≤ 0 then { assert_ok := mi2.halt, freed := mi2.halt, mi := mi2 }
  else { assert_ok := true, freed := false, mi := mi2 }

/-- `REAP_MAX_WAKEUP` (multi.h): do a reap pass at least once per 10 s. -/
def REAP_MAX_WAKEUP : Int := 10

/-- Modelled from the spec: `tv_delta` (otime.h, not among the studied
sources) stores the difference `t2 - t1` of two timevals, normalised to a
microsecond field in `[0, 1000000)` and saturating at zero when `t2` is not
later than `t1` ("the core computes next_deadline − now"). -/
def tv_delta (t1 t2 : Timeval) : Timeval :=
  let sec := t2.tv_sec - t1.tv_sec
  let usec := t2.tv_usec - t1.tv_usec
  let sec2 := if usec < 0 then sec - 1 else sec
  let usec2 := if usec < 0 then usec + 1000000 else usec
  if sec2 < 0 then ⟨0, 0⟩ else ⟨sec2, usec2⟩

/-- `multi_get_timeout` (multi.h); `current` stands for the `gettimeofday`
result and `m.schedule` for `schedule_get_earliest_wakeup`.  Returns the
computed `dest` together with the updated context (whose `earliest_wakeup`
the function assigns). -/
def multi_get_timeout (current : Timeval) (m : MultiContext) : Timeval × MultiContext :=
  match m.schedule with
  | some (mi, tv) =>
      let dest := tv_delta current tv
      if REAP_MAX_WAKEUP ≤ dest.tv_sec then
        (⟨REAP_MAX_WAKEUP, 0⟩, { m with earliest_wakeup := none })
      else (dest, { m with earliest_wakeup := some mi })
  | none => (⟨REAP_MAX_WAKEUP, 0⟩, { m with earliest_wakeup := none })

/-- A timeval as a number of microseconds. -/
def tv_micros (t : Timeval) : Int := t.tv_sec * 1000000 + t.tv_usec

/-- Device type as computed by `dev_type_enum (o->dev, o->dev_type)`
(tun.h); the string parsing itself is outside the studied sources, so the
options record carries the already-computed enum value. -/
inductive DevTypeEnum where
  | UNDEF
  | NULLDEV
  | TUN
  | TAP
deriving Repr, DecidableEq

/-- `MODE_POINT_TO_POINT` / `MODE_SERVER` (options.h). -/
inductive Mode where
  | POINT_TO_POINT
  | SERVER
deriving Repr, DecidableEq

/-- The protocols of socket.h relevant to the helper expansion. -/
inductive Proto where
  | UDPv4
  | TCPv4
  | TCPv4_SERVER
  | TCPv4_CLIENT
deriving Repr, DecidableEq

/-- `ping_rec_timeout_action` values (options.h). -/
inductive PingAction where
  | PING_UNDEF
  | PING_EXIT
  | PING_RESTART
deriving Repr, DecidableEq

/-- A pushed client option, by its parsed content: `print_opt_route`
produces `route NETWORK [NETMASK]`, `print_opt_route_gateway` produces
`route-gateway GW`, and `print_str_int` produces `STR INT` (helper.c). -/
inductive PushOpt where
  | route (network : Nat) (netmask : Option Nat)
  | route_gateway (gw : Nat)
  | str_int (s : String) (i : Int)
deriving Repr, DecidableEq

/-- `struct options` (options.h), restricted to the fields that
`helper_client_server` and `helper_keepalive` read or write.  Addresses are
host-byte-order `in_addr_t` values as `Nat`; `ifconfig_local` and
`ifconfig_remote_netmask` (strings in C) are kept as the printed address
values; `shared_secret_file` records whether `--secret` was given; `routes`
accumulates `helper_add_route` calls and `push_list` accumulates
`push_option` calls. -/
structure Options where
  dev : DevTypeEnum
  server_defined : Bool
  server_network : Nat
  server_netmask : Nat
  server_bridge_defined : Bool
  server_bridge_ip : Nat
  server_bridge_netmask : Nat
  server_bridge_pool_start : Nat
  server_bridge_pool_end : Nat
  client : Bool
  shared_secret_file : Bool
  mode : Mode
  tls_server : Bool
  tls_client : Bool
  pull : Bool
  enable_c2c : Bool
  ifconfig_pool_defined : Bool
  ifconfig_pool_start : Nat
  ifconfig_pool_end : Nat
  ifconfig_pool_netmask : Option Nat
  ifconfig_pool_linear : Bool
  ifconfig_local : Option Nat
  ifconfig_remote_netmask : Option Nat
  proto : Proto
  routes : List (Nat × Nat)
  push_list : List PushOpt
  keepalive_ping : Int
  keepalive_timeout : Int
  ping_send_timeout : Int
  ping_rec_timeout : Int
  ping_rec_timeout_action : PingAction
deriving Repr, DecidableEq

/-- Modelled from the spec: `netbits_to_netmask` (route.c, not among the
studied sources): the 32-bit prefix mask of `n` leading one bits. -/
def netbits_to_netmask (n : Nat) : Nat :=
  (4294967295 <<< (32 - n)) &&& 4294967295

/-- Modelled from the spec: `netmask_to_netbits` (options.c, not among the
studied sources; the spec rejects an "invalid mask" at configuration time):
succeeds with the prefix length when the netmask is a CIDR prefix mask and
the network address is aligned to it, fails otherwise. -/
def netmask_to_netbits (network netmask : Nat) : Option Nat :=
  if network &&& netmask == network then
    (List.range 33).find? (fun n => netbits_to_netmask n == netmask)
  else none

/-- `print_opt_route` (helper.c): formats `route NETWORK [NETMASK]` and
carries the C `ASSERT (network)` as a fatal error. -/
def print_opt_route (network netmask : Nat) : Except String PushOpt :=
  if network = 0 then Except.error "Assertion failed at helper.c print_opt_route"
  else if netmask ≠ 0 then Except.ok (PushOpt.route network (some netmask))
  else Except.ok (PushOpt.route network none)

/-- `print_opt_route_gateway` (helper.c): formats `route-gateway GW` and
carries the C `ASSERT (route_gateway)` as a fatal error. -/
def print_opt_route_gateway (gw : Nat) : Except String PushOpt :=
  if gw = 0 then Except.error "Assertion failed at helper.c print_opt_route_gateway"
  else Except.ok (PushOpt.route_gateway gw)

/-- The trailing `if (o->proto == PROTO_TCPv4) o->proto = PROTO_TCPv4_SERVER`
of the `--server` and `--server-bridge` branches (helper.c). -/
def tcp_to_server (o : Options) : Options :=
  if o.proto = Proto.TCPv4 then { o with proto := Proto.TCPv4_SERVER } else o

/-- The `if (o->proto == PROTO_TCPv4) o->proto = PROTO_TCPv4_CLIENT` of the
`--client` branch (helper.c). -/
def tcp_to_client (o : Options) : Options :=
  if o.proto = Proto.TCPv4 then { o with proto := Proto.TCPv4_CLIENT } else o

/-- The `--dev tun` expansion of the `--server` directive (helper.c lines
181-204): reject a subnet smaller than /29; reserve 4 addresses at the top
of the pool except for a /29; set server mode, `ifconfig NET+1 NET+2`,
pool `[NET+4, (NET | ~MASK) - reserve]`; install the route `NET/MASK`; push
either the whole route (client-to-client) or a host route to `NET+1`. -/
def helper_server_tun (o : Options) (netbits : Nat) : Except String Options :=
  if 29 < netbits then
    Except.error "Options Error: --server directive when used with --dev tun must define a subnet of /29 or lower"
  else
    let pool_end_reserve : Nat := if netbits = 29 then 0 else 4
    let o1 : Options := { o with
      mode := Mode.SERVER
      tls_server := true
      ifconfig_local := some ((o.server_network + 1) % 4294967296)
      ifconfig_remote_netmask := some ((o.server_network + 2) % 4294967296)
      ifconfig_pool_defined := true
      ifconfig_pool_start := (o.server_network + 4) % 4294967296
      ifconfig_pool_end := (o.server_network ||| (4294967295 ^^^ o.server_netmask)) - pool_end_reserve
      routes := o.routes ++ [(o.server_network, o.server_netmask)] }
    if o1.enable_c2c then
      match print_opt_route o1.server_network o1.server_netmask with
      | Except.error e => Except.error e
      | Except.ok p => Except.ok { o1 with push_list := o1.push_list ++ [p] }
    else if o1.ifconfig_pool_linear = false then
      match print_opt_route ((o1.server_network + 1) % 4294967296) 0 with
      | Except.error e => Except.error e
      | Except.ok p => Except.ok { o1 with push_list := o1.push_list ++ [p] }
    else Except.ok o1

/-- The `--dev tap` expansion of the `--server` directive (helper.c lines
205-220): reject a subnet of /30 or smaller; set server mode,
`ifconfig NET+1 MASK`, pool `[NET+2, (NET | ~MASK) - 1]` with `MASK`; push
`route-gateway NET+1`. -/
def helper_server_tap (o : Options) (netbits : Nat) : Except String Options :=
  if 30 ≤ netbits then
    Except.error "Options Error: --server directive when used with --dev tap must define a subnet of /30 or lower"
  else
    let o1 : Options := { o with
      mode := Mode.SERVER
      tls_server := true
      ifconfig_local := some ((o.server_network + 1) % 4294967296)
      ifconfig_remote_netmask := some o.server_netmask
      ifconfig_pool_defined := true
      ifconfig_pool_start := (o.server_network + 2) % 4294967296
      ifconfig_pool_end := (o.server_network ||| (4294967295 ^^^ o.server_netmask)) - 1
      ifconfig_pool_netmask := some o.server_netmask }
    match print_opt_route_gateway ((o.server_network + 1) % 4294967296) with
    | Except.error e => Except.error e
    | Except.ok p => Except.ok { o1 with push_list := o1.push_list ++ [p] }

/-- The `--server` branch of `helper_client_server` (helper.c).
`min_netbits` is `IFCONFIG_POOL_MIN_NETBITS` (pool.h, not among the studied
sources), kept as a parameter. -/
def helper_server (min_netbits : Nat) (o : Options) : Except String Options :=
  if o.client then
    Except.error "Options Error: --server and --client cannot be used together"
  else if o.server_bridge_defined then
    Except.error "Options Error: --server and --server-bridge cannot be used together"
  else if o.shared_secret_file then
    Except.error "Options Error: --server and --secret cannot be used together (you must use SSL/TLS keys)"
  else if o.ifconfig_pool_defined then
    Except.error "Options Error: --server already defines an ifconfig-pool"
  else if o.dev ≠ DevTypeEnum.TAP ∧ o.dev ≠ DevTypeEnum.TUN then
    Except.error "Options Error: --server directive only makes sense with --dev tun or --dev tap"
  else
    match netmask_to_netbits o.server_network o.server_netmask with
    | none => Except.error "Options Error: --server directive network/netmask combination is invalid"
    | some netbits =>
      if netbits < min_netbits then
        Except.error "Options Error: --server directive netmask allows for too many host addresses"
      else if o.dev = DevTypeEnum.TUN then (helper_server_tun o netbits).map tcp_to_server
      else if o.dev = DevTypeEnum.TAP then (helper_server_tap o netbits).map tcp_to_server
      else Except.error "Assertion failed at helper.c helper_client_server"

/-- `verify_common_subnet` (helper.c) as a pure check: `a` and `b` lie in
the same subnet under `subnet`. -/
def verify_common_subnet (a b subnet : Nat) : Bool :=
  (a &&& subnet) == (b &&& subnet)

/-- The `--server-bridge` branch of `helper_client_server` (helper.c). -/
def helper_bridge (o : Options) : Except String Options :=
  if o.client then
    Except.error "Options Error: --server-bridge and --client cannot be used together"
  else if o.ifconfig_pool_defined then
    Except.error "Options Error: --server-bridge already defines an ifconfig-pool"
  else if o.shared_secret_file then
    Except.error "Options Error: --server-bridge and --secret cannot be used together (you must use SSL/TLS keys)"
  else if o.dev ≠ DevTypeEnum.TAP then
    Except.error "Options Error: --server-bridge directive only makes sense with --dev tap"
  else if ! verify_common_subnet o.server_bridge_ip o.server_bridge_pool_start o.server_bridge_netmask then
    Except.error "Options Error: --server-bridge IP addresses are not in the same subnet"
  else if ! verify_common_subnet o.server_bridge_pool_start o.server_bridge_pool_end o.server_bridge_netmask then
    Except.error "Options Error: --server-bridge IP addresses are not in the same subnet"
  else if ! verify_common_subnet o.server_bridge_ip o.server_bridge_pool_end o.server_bridge_netmask then
    Except.error "Options Error: --server-bridge IP addresses are not in the same subnet"
  else
    let o1 : Options := { o with
      mode := Mode.SERVER
      tls_server := true
      ifconfig_pool_defined := true
      ifconfig_pool_start := o.server_bridge_pool_start
      ifconfig_pool_end := o.server_bridge_pool_end
      ifconfig_pool_netmask := some o.server_bridge_netmask }
    match print_opt_route_gateway o.server_bridge_ip with
    | Except.error e => Except.error e
    | Except.ok p => Except.ok (tcp_to_server { o1 with push_list := o1.push_list ++ [p] })

/-- `helper_client_server` (helper.c): dispatch on `--server`,
`--server-bridge` and `--client`, then reject a still-ambiguous
`--proto tcp`. -/
def helper_client_server (min_netbits : Nat) (o : Options) : Except String Options :=
  let step : Except String Options :=
    if o.server_defined then helper_server min_netbits o
    else if o.server_bridge_defined then helper_bridge o
    else if o.client then Except.ok (tcp_to_client { o with pull := true, tls_client := true })
    else Except.ok o
  match step with
  | Except.error e => Except.error e
  | Except.ok o2 =>
    if o2.proto = Proto.TCPv4 then
      Except.error "Options Error: --proto tcp is ambiguous in this context"
    else Except.ok o2

/-- `helper_keepalive` (helper.c): sanity-check `--keepalive PING RESTART`
and expand it into `ping` / `ping-restart` settings, doubling the restart
timeout and pushing the verbatim values to clients in server mode. -/
def helper_keepalive (o : Options) : Except String Options :=
  if o.keepalive_ping ≠ 0 ∨ o.keepalive_timeout ≠ 0 then
    if o.keepalive_ping ≤ 0 ∨ o.keepalive_timeout ≤ 0 then
      Except.error "Options Error: --keepalive parameters must be > 0"
    else if o.keepalive_ping * 2 > o.keepalive_timeout then
      Except.error "Options Error: the second parameter to --keepalive must be at least twice the value of the first parameter"
    else if o.ping_send_timeout ≠ 0 ∨ o.ping_rec_timeout ≠ 0 then
      Except.error "Options Error: --keepalive conflicts with --ping, --ping-exit, or --ping-restart"
    else
      match o.mode with
      | Mode.POINT_TO_POINT =>
        Except.ok { o with
          ping_rec_timeout_action := PingAction.PING_RESTART
          ping_send_timeout := o.keepalive_ping
          ping_rec_timeout := o.keepalive_timeout }
      | Mode.SERVER =>
        Except.ok { o with
          ping_rec_timeout_action := PingAction.PING_RESTART
          ping_send_timeout := o.keepalive_ping
          ping_rec_timeout := o.keepalive_timeout * 2
          push_list := o.push_list ++
            [PushOpt.str_int "ping" o.keepalive_ping,
             PushOpt.str_int "ping-restart" o.keepalive_timeout] }
  else Except.ok o

/-- Whether a helper expansion ended in a fatal `M_USAGE` / `ASSERT`
error. -/
def is_usage_error (r : Except String Options) : Bool :=
  match r with
  | Except.error _ => true
  | Except.ok _ => false

/-- The observable `--server`/tun expansion outcome: on success, the tuple
`(ifconfig_local, ifconfig_remote_netmask, ifconfig_pool_start,
ifconfig_pool_end)`. -/
def tun_expansion_view (r : Except String Options) : Option (Option Nat × Option Nat × Nat × Nat) :=
  match r with
  | Except.error _ => none
  | Except.ok o2 => some (o2.ifconfig_local, o2.ifconfig_remote_netmask,
      o2.ifconfig_pool_start, o2.ifconfig_pool_end)

/-- A baseline options record: no directives given, everything zeroed, UDP
transport, point-to-point mode. -/
def options0 : Options :=
  { dev := DevTypeEnum.UNDEF
    server_defined := false
    server_network := 0
    server_netmask := 0
    server_bridge_defined := false
    server_bridge_ip := 0
    server_bridge_netmask := 0
    server_bridge_pool_start := 0
    server_bridge_pool_end := 0
    client := false
    shared_secret_file := false
    mode := Mode.POINT_TO_POINT
    tls_server := false
    tls_client := false
    pull := false
    enable_c2c := false
    ifconfig_pool_defined := false
    ifconfig_pool_start := 0
    ifconfig_pool_end := 0
    ifconfig_pool_netmask := none
    ifconfig_pool_linear := false
    ifconfig_local := none
    ifconfig_remote_netmask := none
    proto := Proto.UDPv4
    routes := []
    push_list := []
    keepalive_ping := 0
    keepalive_timeout := 0
    ping_send_timeout := 0
    ping_rec_timeout := 0
    ping_rec_timeout_action := PingAction.PING_UNDEF }

/-- `server 10.8.0.0 255.255.255.248` on a tun device: a /29 subnet, the
edge case of the pool-end reservation.  `10.8.0.0 = 168296448`,
`255.255.255.248 = 4294967288`. -/
def options_server29 : Options :=
  { options0 with
    server_defined := true
    dev := DevTypeEnum.TUN
    server_network := 168296448
    server_netmask := 4294967288 }

/-- `server 10.8.0.0 255.255.255.0` on a tun device: the canonical /24
example.  `255.255.255.0 = 4294967040`. -/
def options_server24 : Options :=
  { options0 with
    server_defined := true
    dev := DevTypeEnum.TUN
    server_network := 168296448
    server_netmask := 4294967040 }

/-- `keepalive 10 60` in server mode, no conflicting ping options. -/
def options_keepalive_server : Options :=
  { options0 with mode := Mode.SERVER, keepalive_ping := 10, keepalive_timeout := 60 }

/-- `keepalive 10 60` in point-to-point mode. -/
def options_keepalive_p2p : Options :=
  { options0 with mode := Mode.POINT_TO_POINT, keepalive_ping := 10, keepalive_timeout := 60 }

/-- `keepalive 10 15`: violates the required `ping * 2 <= restart` ratio. -/
def options_keepalive_bad : Options :=
  { options0 with keepalive_ping := 10, keepalive_timeout := 15 }

/-- An IPv4 host address key: `len = 4`, payload `10.8.0.6` plus unused
trailing bytes. -/
def mroute_addr_ex1 : MrouteAddr :=
  { len := 4, unused := 0, type := 2, netbits := 0
    addr := [10, 8, 0, 6, 0, 0, 0, 0, 0, 0, 0, 0, 0, 0, 0, 0, 0, 0, 0, 0] }

/-- The same key as `mroute_addr_ex1` up to the compared region, but with a
different `unused` byte and different payload bytes beyond `len`. -/
def mroute_addr_ex2 : MrouteAddr :=
  { len := 4, unused := 7, type := 2, netbits := 0
    addr := [10, 8, 0, 6, 9, 9, 9, 9, 9, 9, 9, 9, 9, 9, 9, 9, 9, 9, 9, 9] }

/-- A concrete byte hash standing in for the Jenkins mix: a fold that is
sensitive to every byte of the region and to the initial value. -/
def hash_fn_ex : List Nat → Nat → Nat :=
  fun bytes iv => bytes.foldl (fun h b => h * 257 + b) iv

/-- A session id whose first byte is zero but which is not the zero id. -/
def session_id_ex : SessionId :=
  ⟨[0, 1, 2, 3, 4, 5, 6, 7]⟩

/-- A halted instance whose last reference is being dropped. -/
def multi_instance_ex : MultiInstance :=
  { defined := false, halt := true, refcount := 1 }

/-- A context whose schedule is empty. -/
def multi_context_ex : MultiContext :=
  { route_helper :=
      { cache_generation := 0, ageable_ttl_secs := 60, n_net_len := 0
        net_len := [], net_len_refcount := [] }
    schedule := none
    earliest_wakeup := some multi_instance_ex }

/-! Helper lemmas shared by several of the claim theorems below. -/

/-- `mroute_addr_equal` unfolded into its four component conditions. -/
theorem mroute_addr_equal_spec (a1 a2 : MrouteAddr) :
    mroute_addr_equal a1 a2 = true ↔
      (a1.type = a2.type ∧ a1.netbits = a2.netbits ∧ a1.len = a2.len ∧
       a1.addr.take a1.len = a2.addr.take a2.len) := by
  unfold mroute_addr_equal memcmp_eq
  by_cases h1 : a1.type = a2.type <;> by_cases h2 : a1.netbits = a2.netbits <;>
    by_cases h3 : a1.len = a2.len <;> simp [h1, h2, h3]

/-- `helper_keepalive` on options that pass all its sanity checks: the
expansion in each of the two modes. -/
theorem helper_keepalive_expand_cases (o : Options)
    (hP : 0 < o.keepalive_ping) (hR : 0 < o.keepalive_timeout)
    (hratio : o.keepalive_ping * 2 ≤ o.keepalive_timeout)
    (hsend : o.ping_send_timeout = 0) (hrec : o.ping_rec_timeout = 0) :
    (o.mode = Mode.SERVER →
      helper_keepalive o = Except.ok { o with
        ping_rec_timeout_action := PingAction.PING_RESTART
        ping_send_timeout := o.keepalive_ping
        ping_rec_timeout := o.keepalive_timeout * 2
        push_list := o.push_list ++
          [PushOpt.str_int "ping" o.keepalive_ping,
           PushOpt.str_int "ping-restart" o.keepalive_timeout] }) ∧
    (o.mode = Mode.POINT_TO_POINT →
      helper_keepalive o = Except.ok { o with
        ping_rec_timeout_action := PingAction.PING_RESTART
        ping_send_timeout := o.keepalive_ping
        ping_rec_timeout := o.keepalive_timeout }) := by
  have h0 : o.keepalive_ping ≠ 0 ∨ o.keepalive_timeout ≠ 0 := Or.inl (by omega)
  have h1 : ¬(o.keepalive_ping ≤ 0 ∨ o.keepalive_timeout ≤ 0) := by omega
  have h2 : ¬(o.keepalive_ping * 2 > o.keepalive_timeout) := by omega
  have h3 : ¬(o.ping_send_timeout ≠ 0 ∨ o.ping_rec_timeout ≠ 0) := by simp [hsend, hrec]
  constructor <;> intro hm <;>
    simp only [helper_keepalive, if_pos h0, if_neg h1, if_neg h2, if_neg h3, hm]

/-- `tv_delta` on normalised timevals: the result is normalised and its
microsecond value is the saturating difference. -/
theorem tv_delta_norm (t1 t2 : Timeval)
    (h11 : 0 ≤ t1.tv_usec) (h12 : t1.tv_usec < 1000000)
    (h21 : 0 ≤ t2.tv_usec) (h22 : t2.tv_usec < 1000000) :
    0 ≤ (tv_delta t1 t2).tv_usec ∧ (tv_delta t1 t2).tv_usec < 1000000 ∧
    tv_micros (tv_delta t1 t2) = max 0 (tv_micros t2 - tv_micros t1) := by
  simp only [tv_delta, tv_micros]
  split_ifs <;> simp_all <;> omega

/-! The claim theorems. -/

/-- C1: `multi_route_defined (m, r)` returns true exactly when the route's
target instance is not halted, when the `MULTI_ROUTE_CACHE` flag implies
that `r.cache_generation` equals the route helper's `cache_generation`, and
when the `MULTI_ROUTE_AGEABLE` flag implies that `now - r.last_reference` is
at most the route helper's `ageable_ttl_secs`. -/
theorem multi_route_defined_iff (now : Int) (m : MultiContext) (r : MultiRoute) :
    multi_route_defined now m r = true ↔
      (r.route_instance.halt = false ∧
       (r.flags &&& MULTI_ROUTE_CACHE ≠ 0 →
          r.cache_generation = m.route_helper.cache_generation) ∧
       (r.flags &&& MULTI_ROUTE_AGEABLE ≠ 0 →
          now - r.last_reference ≤ m.route_helper.ageable_ttl_secs)) := by
  unfold multi_route_defined multi_instance_ready
  cases hh : r.route_instance.halt with
  | true => simp [hh]
  | false =>
    simp only [hh, Bool.not_true, Bool.or_false, Bool.not_false, Bool.false_or,
      Bool.false_eq_true, if_false]
    by_cases hc : r.flags &&& MULTI_ROUTE_CACHE = 0 <;>
      by_cases ha : r.flags &&& MULTI_ROUTE_AGEABLE = 0 <;>
        simp [hc, ha] <;> omega

/-- C2: for keepalive parameters `P > 0`, `R > 0` that pass the sanity
checks (`2 P ≤ R`, no conflicting ping options), `helper_keepalive` in
server mode sets `ping_send_timeout` to `P` and `ping_rec_timeout` to
`2 R` and pushes the client options `ping P` and `ping-restart R`, while in
point-to-point mode it sets `ping_send_timeout` to `P` and
`ping_rec_timeout` to `R` verbatim. -/
theorem helper_keepalive_expansion (o : Options)
    (hP : 0 < o.keepalive_ping) (hR : 0 < o.keepalive_timeout)
    (hratio : o.keepalive_ping * 2 ≤ o.keepalive_timeout)
    (hsend : o.ping_send_timeout = 0) (hrec : o.ping_rec_timeout = 0) :
    (o.mode = Mode.SERVER →
      helper_keepalive o = Except.ok { o with
        ping_rec_timeout_action := PingAction.PING_RESTART
        ping_send_timeout := o.keepalive_ping
        ping_rec_timeout := o.keepalive_timeout * 2
        push_list := o.push_list ++
          [PushOpt.str_int "ping" o.keepalive_ping,
           PushOpt.str_int "ping-restart" o.keepalive_timeout] }) ∧
    (o.mode = Mode.POINT_TO_POINT →
      helper_keepalive o = Except.ok { o with
        ping_rec_timeout_action := PingAction.PING_RESTART
        ping_send_timeout := o.keepalive_ping
        ping_rec_timeout := o.keepalive_timeout }) :=
  helper_keepalive_expand_cases o hP hR hratio hsend hrec

/-- Witness for C2: `keepalive 10 60` in server mode expands to
`ping 10`, `ping-restart 120`, `push "ping 10"`, `push "ping-restart 60"`. -/
theorem helper_keepalive_expansion_witness :
    (options_keepalive_server.mode = Mode.SERVER →
      helper_keepalive options_keepalive_server = Except.ok { options_keepalive_server with
        ping_rec_timeout_action := PingAction.PING_RESTART
        ping_send_timeout := options_keepalive_server.keepalive_ping
        ping_rec_timeout := options_keepalive_server.keepalive_timeout * 2
        push_list := options_keepalive_server.push_list ++
          [PushOpt.str_int "ping" options_keepalive_server.keepalive_ping,
           PushOpt.str_int "ping-restart" options_keepalive_server.keepalive_timeout] }) ∧
    (options_keepalive_server.mode = Mode.POINT_TO_POINT →
      helper_keepalive options_keepalive_server = Except.ok { options_keepalive_server with
        ping_rec_timeout_action := PingAction.PING_RESTART
        ping_send_timeout := options_keepalive_server.keepalive_ping
        ping_rec_timeout := options_keepalive_server.keepalive_timeout }) :=
  helper_keepalive_expansion options_keepalive_server (by decide) (by decide)
    (by decide) rfl rfl

/-- Counterexample for C3 as stated: `server 10.8.0.0 255.255.255.248`
(a /29) on a tun device is accepted, but the pool end it sets is the subnet
broadcast address itself (the reserve is 0 for a /29), not the broadcast
address minus 4. -/
theorem helper_client_server_pool_end_cex :
    tun_expansion_view (helper_client_server 16 options_server29) =
      some (some ((options_server29.server_network + 1) % 4294967296),
            some ((options_server29.server_network + 2) % 4294967296),
            (options_server29.server_network + 4) % 4294967296,
            options_server29.server_network |||
              (4294967295 ^^^ options_server29.server_netmask)) ∧
    options_server29.server_network |||
        (4294967295 ^^^ options_server29.server_netmask) ≠
      (options_server29.server_network |||
        (4294967295 ^^^ options_server29.server_netmask)) - 4 := by
  decide

/-- C3 (amended): every valid `server NET MASK` tun configuration accepted
by `helper_client_server` gets `ifconfig NET+1 NET+2` and a pool starting at
`NET+4`; the pool ends at the subnet broadcast address `NET | ~MASK` minus
4, except that for a /29 netmask the reserve is 0 and the pool ends at the
broadcast address itself. -/
theorem helper_client_server_tun_expansion
    (min_netbits netbits : Nat) (o : Options)
    (hserver : o.server_defined = true) (hclient : o.client = false)
    (hbridge : o.server_bridge_defined = false)
    (hsecret : o.shared_secret_file = false)
    (hpool : o.ifconfig_pool_defined = false)
    (hdev : o.dev = DevTypeEnum.TUN)
    (hnet0 : o.server_network ≠ 0)
    (hwrap : o.server_network + 1 < 4294967296)
    (hmask : netmask_to_netbits o.server_network o.server_netmask = some netbits)
    (hmin : min_netbits ≤ netbits) (h29 : netbits ≤ 29) :
    tun_expansion_view (helper_client_server min_netbits o) =
      some (some ((o.server_network + 1) % 4294967296),
            some ((o.server_network + 2) % 4294967296),
            (o.server_network + 4) % 4294967296,
            (o.server_network ||| (4294967295 ^^^ o.server_netmask)) -
              (if netbits = 29 then 0 else 4)) := by
  have hmin2 : ¬(netbits < min_netbits) := by omega
  have h29b : ¬(29 < netbits) := by omega
  have hplus0 : (o.server_network + 1) % 4294967296 ≠ 0 := by
    rw [Nat.mod_eq_of_lt hwrap]; omega
  have hstep : helper_client_server min_netbits o =
      match (helper_server_tun o netbits).map tcp_to_server with
      | Except.error e => Except.error e
      | Except.ok o2 =>
        if o2.proto = Proto.TCPv4 then
          Except.error "Options Error: --proto tcp is ambiguous in this context"
        else Except.ok o2 := by
    simp [helper_client_server, helper_server, hserver, hclient, hbridge, hsecret,
      hpool, hdev, hmask, hmin2]
  rw [hstep]
  rw [helper_server_tun, if_neg h29b]
  by_cases hc2c : o.enable_c2c <;> by_cases hlin : o.ifconfig_pool_linear <;>
    by_cases hm0 : o.server_netmask = 0 <;> by_cases hp : o.proto = Proto.TCPv4 <;>
      simp [print_opt_route, tcp_to_server, tun_expansion_view, Except.map,
        hnet0, hplus0, hc2c, hlin, hm0, hp]

/-- Witness for C3 (amended): `server 10.8.0.0 255.255.255.0` (a /24) on a
tun device gives ifconfig `10.8.0.1 10.8.0.2` and the pool
`[10.8.0.4, 10.8.0.251]`. -/
theorem helper_client_server_tun_expansion_witness :
    tun_expansion_view (helper_client_server 16 options_server24) =
      some (some ((options_server24.server_network + 1) % 4294967296),
            some ((options_server24.server_network + 2) % 4294967296),
            (options_server24.server_network + 4) % 4294967296,
            (options_server24.server_network |||
              (4294967295 ^^^ options_server24.server_netmask)) -
              (if 24 = 29 then 0 else 4)) :=
  helper_client_server_tun_expansion 16 24 options_server24 rfl rfl rfl rfl rfl rfl
    (by decide) (by decide) (by decide) (by decide) (by decide)

/-- C4: `multi_get_timeout` stores into `dest` a timeout of at most
`REAP_MAX_WAKEUP` (10) seconds; when the schedule has no earliest wakeup,
or the earliest wakeup lies 10 or more seconds in the future, it stores
exactly 10 seconds with zero microseconds and clears `earliest_wakeup`. -/
theorem multi_get_timeout_clamped (current : Timeval) (m : MultiContext)
    (hc1 : 0 ≤ current.tv_usec) (hc2 : current.tv_usec < 1000000)
    (hsch : ∀ mi tv, m.schedule = some (mi, tv) →
      0 ≤ tv.tv_usec ∧ tv.tv_usec < 1000000) :
    tv_micros (multi_get_timeout current m).1 ≤ REAP_MAX_WAKEUP * 1000000 ∧
    ((m.schedule = none ∨
      (∃ mi tv, m.schedule = some (mi, tv) ∧
        REAP_MAX_WAKEUP * 1000000 ≤ tv_micros tv - tv_micros current)) →
      ((multi_get_timeout current m).1 = ⟨REAP_MAX_WAKEUP, 0⟩ ∧
       (multi_get_timeout current m).2.earliest_wakeup = none)) := by
  cases hs : m.schedule with
  | none =>
    simp [multi_get_timeout, hs, tv_micros, REAP_MAX_WAKEUP]
  | some p =>
    obtain ⟨mi, tv⟩ := p
    obtain ⟨ht1, ht2⟩ := hsch mi tv hs
    obtain ⟨hd1, hd2, hd3⟩ := tv_delta_norm current tv hc1 hc2 ht1 ht2
    simp only [multi_get_timeout, hs]
    by_cases hclamp : REAP_MAX_WAKEUP ≤ (tv_delta current tv).tv_sec
    · rw [if_pos hclamp]
      refine ⟨by simp [tv_micros, REAP_MAX_WAKEUP], fun _ => ⟨rfl, rfl⟩⟩
    · rw [if_neg hclamp]
      simp only [REAP_MAX_WAKEUP] at hclamp ⊢
      constructor
      · simp only [tv_micros] at hd3 ⊢
        omega
      · rintro (h | ⟨mi2, tv2, heq, hfar⟩)
        · simp [hs] at h
        · injection heq with heq2
          injection heq2 with heq3 heq4
          subst heq4
          simp only [REAP_MAX_WAKEUP, tv_micros] at hfar hd3 hclamp hd1 hd2
          omega

/-- Witness for C4: with an empty schedule the timeout is exactly 10 s with
zero microseconds and `earliest_wakeup` is cleared. -/
theorem multi_get_timeout_clamped_witness :
    tv_micros (multi_get_timeout ⟨0, 0⟩ multi_context_ex).1 ≤ REAP_MAX_WAKEUP * 1000000 ∧
    ((multi_get_timeout ⟨0, 0⟩ multi_context_ex).1 = ⟨REAP_MAX_WAKEUP, 0⟩ ∧
     (multi_get_timeout ⟨0, 0⟩ multi_context_ex).2.earliest_wakeup = none) := by
  have h := multi_get_timeout_clamped ⟨0, 0⟩ multi_context_ex (by decide) (by decide)
    (by intro mi tv heq; simp [multi_context_ex] at heq)
  exact ⟨h.1, h.2 (Or.inl rfl)⟩

/-- C5: `mroute_addr_equal (a1, a2)` returns true exactly when the two keys
have the same `type`, the same `netbits`, the same `len`, and identical
first `len` bytes of their `addr` payload. -/
theorem mroute_addr_equal_iff (a1 a2 : MrouteAddr) :
    mroute_addr_equal a1 a2 = true ↔
      (a1.type = a2.type ∧ a1.netbits = a2.netbits ∧ a1.len = a2.len ∧
       a1.addr.take a1.len = a2.addr.take a2.len) :=
  mroute_addr_equal_spec a1 a2

/-- C6: `session_id_defined` passes `memcmp` the size
`sizeof (struct session_id) != 0`, i.e. 1, so it reports a session id as
defined exactly when its first byte is non-zero, ignoring the remaining
7 bytes. -/
theorem session_id_defined_first_byte (sid : SessionId) (h : sid.id.length = 8) :
    (session_id_defined sid = true ↔ sid.id.head? ≠ some 0) := by
  unfold session_id_defined memcmp_eq session_id_zero sizeof_session_id
  cases hid : sid.id with
  | nil => rw [hid] at h; simp at h
  | cons a rest => simp [List.take, List.replicate]

/-- Witness for C6: the id `00 01 02 03 04 05 06 07` has a zero first byte
but non-zero bytes elsewhere, and is reported as not defined. -/
theorem session_id_defined_first_byte_witness :
    (session_id_defined session_id_ex = true ↔ session_id_ex.id.head? ≠ some 0) :=
  session_id_defined_first_byte session_id_ex rfl

/-- C7: under the invariant that the refcount only reaches zero after the
instance was closed (`halt` set), `multi_instance_dec_refcount` never fails
its `ASSERT (mi->halt)`, and it frees the instance exactly when the
decrement brings the refcount to zero. -/
theorem multi_instance_dec_refcount_frees_at_zero (mi : MultiInstance)
    (hpos : 1 ≤ mi.refcount) (hhalt : mi.refcount = 1 → mi.halt = true) :
    (multi_instance_dec_refcount mi).assert_ok = true ∧
    ((multi_instance_dec_refcount mi).freed = true ↔ mi.refcount = 1) := by
  unfold multi_instance_dec_refcount
  by_cases h : mi.refcount - 1 ≤ 0
  · have h1 : mi.refcount = 1 := by omega
    simp [h, h1, hhalt h1]
  · have h1 : mi.refcount ≠ 1 := by omega
    simp [h, h1]

/-- Witness for C7: dropping the last reference of a halted instance passes
the assertion and frees it. -/
theorem multi_instance_dec_refcount_frees_at_zero_witness :
    (multi_instance_dec_refcount multi_instance_ex).assert_ok = true ∧
    ((multi_instance_dec_refcount multi_instance_ex).freed = true ↔
      multi_instance_ex.refcount = 1) :=
  multi_instance_dec_refcount_frees_at_zero multi_instance_ex (by decide) (fun _ => rfl)

/-- C8: `helper_keepalive` fails with a usage error whenever keepalive
parameters are present and either is not positive or `2 P` exceeds `R`,
and raises no error when both are positive, `2 P ≤ R` and no conflicting
ping options are set. -/
theorem helper_keepalive_sanity (o : Options) :
    ((o.keepalive_ping ≠ 0 ∨ o.keepalive_timeout ≠ 0) →
     (o.keepalive_ping ≤ 0 ∨ o.keepalive_timeout ≤ 0 ∨
      o.keepalive_timeout < o.keepalive_ping * 2) →
     is_usage_error (helper_keepalive o) = true) ∧
    (0 < o.keepalive_ping → 0 < o.keepalive_timeout →
     o.keepalive_ping * 2 ≤ o.keepalive_timeout →
     o.ping_send_timeout = 0 → o.ping_rec_timeout = 0 →
     is_usage_error (helper_keepalive o) = false) := by
  constructor
  · intro hpresent hbad
    unfold helper_keepalive
    rw [if_pos hpresent]
    by_cases h1 : o.keepalive_ping ≤ 0 ∨ o.keepalive_timeout ≤ 0
    · rw [if_pos h1]; rfl
    · rw [if_neg h1, if_pos (by omega)]; rfl
  · intro h1 h2 h3 h4 h5
    obtain ⟨hs, hp⟩ := helper_keepalive_expand_cases o h1 h2 h3 h4 h5
    cases hm : o.mode with
    | SERVER => rw [hs hm]; rfl
    | POINT_TO_POINT => rw [hp hm]; rfl

/-- Witness for C8: `keepalive 10 15` is rejected (the restart timeout is
less than twice the ping interval) and `keepalive 10 60` is accepted. -/
theorem helper_keepalive_sanity_witness :
    is_usage_error (helper_keepalive options_keepalive_bad) = true ∧
    is_usage_error (helper_keepalive options_keepalive_server) = false :=
  ⟨(helper_keepalive_sanity options_keepalive_bad).1 (Or.inl (by decide)) (by decide),
   (helper_keepalive_sanity options_keepalive_server).2 (by decide) (by decide)
     (by decide) rfl rfl⟩

/-- C9: keys equal under `mroute_addr_equal` have the same hashed byte
region (`mroute_addr_hash_len` bytes starting at `mroute_addr_hash_ptr`:
the type field, the netbits field, and the first `len` payload bytes), so
`mroute_addr_hash_function` gives them the same hash for every byte hash
`hf` and every initial value `iv`. -/
theorem mroute_addr_hash_consistent (hf : List Nat → Nat → Nat) (iv : Nat)
    (a1 a2 : MrouteAddr) (h : mroute_addr_equal a1 a2 = true) :
    mroute_addr_hash_len a1 = mroute_addr_hash_len a2 ∧
    mroute_addr_hash_region a1 = mroute_addr_hash_region a2 ∧
    mroute_addr_hash_function hf a1 iv = mroute_addr_hash_function hf a2 iv := by
  obtain ⟨ht, hn, hl, hb⟩ := (mroute_addr_equal_spec a1 a2).1 h
  rw [hl] at hb
  have hreg : mroute_addr_hash_region a1 = mroute_addr_hash_region a2 := by
    unfold mroute_addr_hash_region mroute_addr_hash_len
    rw [hl, ht, hn]
    simp [List.take_succ_cons, hb]
  refine ⟨by unfold mroute_addr_hash_len; omega, hreg, ?_⟩
  unfold mroute_addr_hash_function
  rw [hreg]

/-- Witness for C9: two keys that differ in the `unused` byte and in
payload bytes beyond `len` are `mroute_addr_equal` and hash alike. -/
theorem mroute_addr_hash_consistent_witness :
    mroute_addr_hash_len mroute_addr_ex1 = mroute_addr_hash_len mroute_addr_ex2 ∧
    mroute_addr_hash_region mroute_addr_ex1 = mroute_addr_hash_region mroute_addr_ex2 ∧
    mroute_addr_hash_function hash_fn_ex mroute_addr_ex1 3 =
      mroute_addr_hash_function hash_fn_ex mroute_addr_ex2 3 :=
  mroute_addr_hash_consistent hash_fn_ex 3 mroute_addr_ex1 mroute_addr_ex2 (by decide)

/-- C10: `crc32 (crc, buf, len)` returns 0 when `buf` is NULL, for every
initial `crc` and every `len`. -/
theorem crc32_null_buf (crc len : Nat) : crc32 crc none len = 0 := rfl

end OpenVPN
